import Mathlib

/-
Verification of gcloud/pubsub/connection.py: the Pub/Sub `Connection`
class, a thin binding over the Google Cloud Pub/Sub JSON REST API.

The connection's own code (constructor base-URL resolution, URL
composition defaults, and the six resource methods) is embedded
faithfully from the source.  The shared base class it inherits from
(the generic JSON request primitive and URL-template instantiation)
lives outside this file; those collaborators are modelled from the
spec, each marked as such in its doc comment.  The network is an
oracle mapping a request description to a decoded JSON mapping, and
every operation additionally returns the list of requests it issued
and the (possibly updated) connection, so that single-request and
immutability properties are expressible.
-/

namespace GCloudPubsub

/-- Decoded JSON values, as produced by the transport layer. -/
inductive Json where
  | null : Json
  | bool : Bool → Json
  | num : Int → Json
  | str : String → Json
  | arr : List Json → Json
  | obj : List (String × Json) → Json

/-- Description of one HTTP request handed to the request primitive:
method, path (relative to base URL and version), query parameters and
optional JSON body. -/
structure Request where
  method : String
  path : String
  query_params : List (String × Json)
  data : Option Json

/-- The connection's configuration.  Credentials and the HTTP transport
handle are never inspected by this layer, so they are kept as
uninterpreted optional strings. -/
structure Connection where
  api_base_url : String
  credentials : Option String
  http : Option String

/-- Embedding of Connection.API_BASE_URL: the default public endpoint. -/
def API_BASE_URL : String := "https://pubsub.googleapis.com"

/-- Embedding of Connection.API_VERSION. -/
def API_VERSION : String := "v1"

/-- Embedding of Connection.API_URL_TEMPLATE (braces written as escapes). -/
def API_URL_TEMPLATE : String :=
  "\x7bapi_base_url\x7d/\x7bapi_version\x7d\x7bpath\x7d"

/-- Embedding of Connection.SCOPE. -/
def SCOPE : List String :=
  ["https://www.googleapis.com/auth/pubsub",
   "https://www.googleapis.com/auth/cloud-platform"]

/-- Embedding of Connection.__init__.  `env` is the value of the
emulator-host environment variable (`none` means unset); reading it is
the only environment interaction of the constructor.  An explicit
`api_base_url` argument is used as given; otherwise a set emulator
variable yields the string http:// followed by its value; otherwise the
default public endpoint is used. -/
def Connection.create (credentials http api_base_url : Option String)
    (env : Option String) : Connection :=
  let resolved : String :=
    match api_base_url with
    | some url => url
    | none =>
      match env with
      | none => API_BASE_URL
      | some emulator_host => "http://" ++ emulator_host
  { api_base_url := resolved, credentials := credentials, http := http }

/-- Upper-case hexadecimal digit for a value below 16. -/
def hexDigit (n : Nat) : Char :=
  if n < 10 then Char.ofNat (48 + n) else Char.ofNat (55 + n)

/-- UTF-8 byte values of a character, for percent-escaping. -/
def utf8Bytes (c : Char) : List Nat :=
  let n := c.toNat
  if n < 128 then [n]
  else if n < 2048 then [192 + n / 64, 128 + n % 64]
  else if n < 65536 then
    [224 + n / 4096, 128 + n / 64 % 64, 128 + n % 64]
  else
    [240 + n / 262144, 128 + n / 4096 % 64, 128 + n / 64 % 64, 128 + n % 64]

/-- Modelled from the spec: percent-encoding of one character in a query
string (the standard-library quote_plus used by the base class, which is
not part of this file).  Unreserved characters pass through, a space
becomes a plus sign, and any other character becomes the percent-escaped
UTF-8 bytes. -/
def quote_plus_char (c : Char) : String :=
  if c.isAlphanum || c == '_' || c == '.' || c == '-' then String.singleton c
  else if c == ' ' then "+"
  else String.join ((utf8Bytes c).map (fun b =>
    String.mk ['%', hexDigit (b / 16), hexDigit (b % 16)]))

/-- Percent-encoding of a whole string, character by character. -/
def quote_plus (s : String) : String :=
  String.join (s.toList.map quote_plus_char)

/-- Modelled from the spec: the string form of a query-parameter value
as serialized into the query string.  The methods of this file only put
numbers (pageSize) and strings (pageToken) into query parameters. -/
def Json.paramString : Json → String
  | Json.null => "None"
  | Json.bool b => if b then "True" else "False"
  | Json.num n => toString n
  | Json.str s => s
  | Json.arr _ => ""
  | Json.obj _ => ""

/-- Modelled from the spec: urlencode of a query-parameter mapping, as
performed by the base class, which is not part of this file: each
key=value pair percent-encoded, pairs joined by ampersands. -/
def urlencode (params : List (String × Json)) : String :=
  String.intercalate "&" (params.map (fun kv =>
    quote_plus kv.1 ++ "=" ++ quote_plus (Json.paramString kv.2)))

/-- Modelled from the spec: build_api_url of the shared JSONConnection
base class, which is not part of this file.  It instantiates the URL
template base/version followed by the path, and appends the
percent-encoded query parameters after a question mark, omitting them
entirely when the mapping is empty. -/
def base_build_api_url (api_base_url api_version path : String)
    (query_params : List (String × Json)) : String :=
  let url := api_base_url ++ "/" ++ api_version ++ path
  if query_params.isEmpty then url else url ++ "?" ++ urlencode query_params

/-- Embedding of Connection.build_api_url: defaults the base URL from
the connection when no override is given and delegates to the base
class with the default API version.  Returned in the uniform shape
(result, requests issued, connection) to express that it performs no
request and leaves the connection unchanged. -/
def Connection.build_api_url (conn : Connection) (path : String)
    (query_params : List (String × Json))
    (api_base_url api_version : Option String) :
    String × List Request × Connection :=
  let base : String :=
    match api_base_url with
    | none => conn.api_base_url
    | some b => b
  (base_build_api_url base (api_version.getD API_VERSION) path query_params,
   [], conn)

/-- Modelled from the spec: the external request primitive api_request
of the shared base class, which is not part of this file.  It performs
exactly one HTTP request described by the given method, path, query
parameters and optional body, and returns the decoded JSON mapping of
the response; the network is abstracted by the `oracle`.  The issued
request is recorded in the trace component. -/
def Connection.api_request (conn : Connection)
    (oracle : Request → List (String × Json))
    (method path : String) (query_params : List (String × Json))
    (data : Option Json) :
    List (String × Json) × List Request × Connection :=
  let req : Request :=
    { method := method, path := path,
      query_params := query_params, data := data }
  (oracle req, [req], conn)

/-- Embedding of Connection.list_topics: builds pageSize and pageToken
query parameters exactly when supplied, issues one GET request to
/projects/{project}/topics, and returns the topics value of the decoded
response (empty sequence when the key is absent) together with the
nextPageToken value (none when absent). -/
def Connection.list_topics (conn : Connection)
    (oracle : Request → List (String × Json))
    (project : String) (page_size : Option Int) (page_token : Option String) :
    (Json × Option Json) × List Request × Connection :=
  let params : List (String × Json) :=
    (match page_size with
     | some n => [("pageSize", Json.num n)]
     | none => []) ++
    (match page_token with
     | some t => [("pageToken", Json.str t)]
     | none => [])
  let path := "/projects/" ++ project ++ "/topics"
  let r := conn.api_request oracle "GET" path params none
  (((List.lookup "topics" r.1).getD (Json.arr []),
    List.lookup "nextPageToken" r.1),
   r.2.1, r.2.2)

/-- Embedding of Connection.list_subscriptions: same shape as
list_topics, against /projects/{project}/subscriptions and the
subscriptions response key. -/
def Connection.list_subscriptions (conn : Connection)
    (oracle : Request → List (String × Json))
    (project : String) (page_size : Option Int) (page_token : Option String) :
    (Json × Option Json) × List Request × Connection :=
  let params : List (String × Json) :=
    (match page_size with
     | some n => [("pageSize", Json.num n)]
     | none => []) ++
    (match page_token with
     | some t => [("pageToken", Json.str t)]
     | none => [])
  let path := "/projects/" ++ project ++ "/subscriptions"
  let r := conn.api_request oracle "GET" path params none
  (((List.lookup "subscriptions" r.1).getD (Json.arr []),
    List.lookup "nextPageToken" r.1),
   r.2.1, r.2.2)

/-- Embedding of Connection.topic_create: one PUT request to the slash
followed by the topic path, no query parameters and no body; the decoded
response is returned unchanged. -/
def Connection.topic_create (conn : Connection)
    (oracle : Request → List (String × Json)) (topic_path : String) :
    List (String × Json) × List Request × Connection :=
  conn.api_request oracle "PUT" ("/" ++ topic_path) [] none

/-- Embedding of Connection.topic_get: one GET request to the slash
followed by the topic path. -/
def Connection.topic_get (conn : Connection)
    (oracle : Request → List (String × Json)) (topic_path : String) :
    List (String × Json) × List Request × Connection :=
  conn.api_request oracle "GET" ("/" ++ topic_path) [] none

/-- Embedding of Connection.topic_delete: one DELETE request to the
slash followed by the topic path. -/
def Connection.topic_delete (conn : Connection)
    (oracle : Request → List (String × Json)) (topic_path : String) :
    List (String × Json) × List Request × Connection :=
  conn.api_request oracle "DELETE" ("/" ++ topic_path) [] none

/-- Embedding of Connection.topic_publish: one POST request to the topic
path suffixed with the publish verb, whose JSON body is the single-key
mapping from messages to the given message sequence, each message passed
through unmodified. -/
def Connection.topic_publish (conn : Connection)
    (oracle : Request → List (String × Json))
    (topic_path : String) (messages : List Json) :
    List (String × Json) × List Request × Connection :=
  let data := Json.obj [("messages", Json.arr messages)]
  conn.api_request oracle "POST" ("/" ++ topic_path ++ ":publish") [] (some data)

/-- Generic single-page listing endpoint, following the spec wording for
the contract shared by list_topics and list_subscriptions: one GET to
/projects/{project}/ followed by the path segment, with optional
pageSize and pageToken parameters, returning the value under the given
response key (empty sequence when absent) and the nextPageToken value
(none when absent). -/
def list_resources_spec (segment key : String) (conn : Connection)
    (oracle : Request → List (String × Json))
    (project : String) (page_size : Option Int) (page_token : Option String) :
    (Json × Option Json) × List Request × Connection :=
  let params : List (String × Json) :=
    (match page_size with
     | some n => [("pageSize", Json.num n)]
     | none => []) ++
    (match page_token with
     | some t => [("pageToken", Json.str t)]
     | none => [])
  let path := "/projects/" ++ project ++ "/" ++ segment
  let r := conn.api_request oracle "GET" path params none
  (((List.lookup key r.1).getD (Json.arr []),
    List.lookup "nextPageToken" r.1),
   r.2.1, r.2.2)

/-- C1: at construction, the base URL is resolved in order: an explicit
api_base_url argument is used as given; otherwise a set emulator
environment variable yields http:// followed by its value (for example
http://localhost:8085 for localhost:8085); otherwise the default public
endpoint https://pubsub.googleapis.com is used.  In the embedding the
constructor is a pure function of its arguments and the single
environment-variable value, so no further environment interaction
occurs. -/
theorem c1_construction_base_url_resolution :
    (∀ (creds http env : Option String) (url : String),
      (Connection.create creds http (some url) env).api_base_url = url)
    ∧ (∀ (creds http : Option String) (host : String),
      (Connection.create creds http none (some host)).api_base_url =
        "http://" ++ host)
    ∧ (∀ (creds http : Option String),
      (Connection.create creds http none none).api_base_url =
        "https://pubsub.googleapis.com")
    ∧ (∀ (creds http : Option String),
      (Connection.create creds http none (some "localhost:8085")).api_base_url
        = "http://localhost:8085") := by
  refine ⟨fun _ _ _ _ => rfl, fun _ _ _ => rfl, fun _ _ => rfl, fun _ _ => rfl⟩

/-- C8: two-run noninterference of the environment on construction:
with the same explicit api_base_url argument, any two environment
states (set to anything, or unset) yield identical connections, so the
explicit argument overrides both the emulator variable and the
default. -/
theorem c8_explicit_base_url_noninterference :
    ∀ (creds http : Option String) (url : String) (env1 env2 : Option String),
      Connection.create creds http (some url) env1 =
        Connection.create creds http (some url) env2 := by
  intro creds http url env1 env2
  rfl

/-- C10: with the emulator environment variable set to the empty string
and no explicit base URL, the constructor resolves the base URL to the
bare scheme http:// rather than to the default public endpoint: the
lookup distinguishes unset from set-but-empty and concatenates the value
without validation. -/
theorem c10_empty_emulator_host :
    (Connection.create none none none (some "")).api_base_url = "http://"
    ∧ ((Connection.create none none none (some "")).api_base_url ==
        API_BASE_URL) = false := by
  exact ⟨rfl, rfl⟩

/-- C5: topic_publish issues exactly one POST request to the topic path
prefixed by a slash and suffixed with the publish verb, with no query
parameters and with JSON body the single-key mapping from messages to
the given message sequence unmodified, and returns the decoded response
of that request unchanged, leaving the connection unchanged. -/
theorem c5_topic_publish_request :
    ∀ (conn : Connection) (oracle : Request → List (String × Json))
      (topic_path : String) (messages : List Json),
      conn.topic_publish oracle topic_path messages =
        (oracle
          { method := "POST", path := "/" ++ topic_path ++ ":publish",
            query_params := [],
            data := some (Json.obj [("messages", Json.arr messages)]) },
         [{ method := "POST", path := "/" ++ topic_path ++ ":publish",
            query_params := [],
            data := some (Json.obj [("messages", Json.arr messages)]) }],
         conn) := by
  intro conn oracle topic_path messages
  rfl

/-- C6: topic_create issues one PUT request, topic_get one GET request,
and topic_delete one DELETE request, each to the topic path prefixed by
a slash, with no query parameters and no body, and each returns the
decoded response of that single request. -/
theorem c6_topic_create_get_delete_requests :
    ∀ (conn : Connection) (oracle : Request → List (String × Json))
      (p : String),
      conn.topic_create oracle p =
        (oracle { method := "PUT", path := "/" ++ p,
                  query_params := [], data := none },
         [{ method := "PUT", path := "/" ++ p,
            query_params := [], data := none }], conn)
      ∧ conn.topic_get oracle p =
        (oracle { method := "GET", path := "/" ++ p,
                  query_params := [], data := none },
         [{ method := "GET", path := "/" ++ p,
            query_params := [], data := none }], conn)
      ∧ conn.topic_delete oracle p =
        (oracle { method := "DELETE", path := "/" ++ p,
                  query_params := [], data := none },
         [{ method := "DELETE", path := "/" ++ p,
            query_params := [], data := none }], conn) := by
  intro conn oracle p
  exact ⟨rfl, rfl, rfl⟩

/-- C3: for every decoded response mapping, list_topics returns the
pair of the topics value unchanged when the key is present (the empty
sequence when absent) and the nextPageToken value when present (none
when absent); in particular a response with no topics key yields the
empty sequence and no token, and a response with a topics sequence and
nextPageToken abc yields that exact sequence and abc. -/
theorem c3_list_topics_response_mapping :
    (∀ (conn : Connection) (project : String) (ps : Option Int)
       (pt : Option String) (resp : List (String × Json)),
      (conn.list_topics (fun _ => resp) project ps pt).1 =
        ((List.lookup "topics" resp).getD (Json.arr []),
         List.lookup "nextPageToken" resp))
    ∧ (∀ (conn : Connection) (project : String),
      (conn.list_topics (fun _ => []) project none none).1 =
        (Json.arr [], none))
    ∧ (∀ (conn : Connection) (project : String) (ts : List Json),
      (conn.list_topics
          (fun _ => [("topics", Json.arr ts),
                     ("nextPageToken", Json.str "abc")])
          project none none).1 =
        (Json.arr ts, some (Json.str "abc"))) := by
  refine ⟨fun _ _ _ _ _ => rfl, fun _ _ => rfl, fun _ _ _ => rfl⟩

/-- C4: list_topics issues exactly one request, a GET to
/projects/{project}/topics, whose query parameters contain pageSize
exactly when page_size was supplied and pageToken exactly when
page_token was supplied, with no body; it never issues further requests
(single page per call). -/
theorem c4_list_topics_single_get_request :
    ∀ (conn : Connection) (oracle : Request → List (String × Json))
      (project : String) (ps : Option Int) (pt : Option String),
      (conn.list_topics oracle project ps pt).2.1 =
        [{ method := "GET", path := "/projects/" ++ project ++ "/topics",
           query_params :=
             (match ps with
              | some n => [("pageSize", Json.num n)]
              | none => []) ++
             (match pt with
              | some t => [("pageToken", Json.str t)]
              | none => []),
           data := none }]
      ∧ ((conn.list_topics oracle project ps pt).2.1).length = 1
      ∧ ((conn.list_topics oracle project ps pt).2.1).map
          (fun r => r.query_params.any (fun kv => kv.1 == "pageSize")) =
          [ps.isSome]
      ∧ ((conn.list_topics oracle project ps pt).2.1).map
          (fun r => r.query_params.any (fun kv => kv.1 == "pageToken")) =
          [pt.isSome] := by
  intro conn oracle project ps pt
  refine ⟨rfl, rfl, ?_, ?_⟩ <;> cases ps <;> cases pt <;> rfl

/-- C2: build_api_url returns the string base slash version path, with
the base defaulted from the connection when no override is given and
the version defaulted to v1, and with the percent-encoded query
parameters appended after a question mark, omitted entirely when the
mapping is empty; it issues no request and leaves the connection
unchanged, and being a total function it is deterministic and never
fails. -/
theorem c2_build_api_url_shape :
    ∀ (conn : Connection) (path : String) (qp : List (String × Json))
      (b v : Option String),
      conn.build_api_url path qp b v =
        ((b.getD conn.api_base_url) ++ "/" ++ (v.getD API_VERSION) ++ path ++
           (if qp.isEmpty then "" else "?" ++ urlencode qp),
         [], conn) := by
  intro conn path qp b v
  cases b <;> cases hq : qp.isEmpty <;>
    simp [Connection.build_api_url, base_build_api_url, hq,
      String.append_empty, String.append_assoc]

/-- C7: list_subscriptions has the same contract as list_topics up to
renaming: both equal the generic spec-level listing function, with
list_topics instantiating the path segment and response key to topics
and list_subscriptions instantiating both to subscriptions. -/
theorem c7_list_subscriptions_mirrors_list_topics :
    ∀ (conn : Connection) (oracle : Request → List (String × Json))
      (project : String) (ps : Option Int) (pt : Option String),
      conn.list_topics oracle project ps pt =
        list_resources_spec "topics" "topics" conn oracle project ps pt
      ∧ conn.list_subscriptions oracle project ps pt =
        list_resources_spec "subscriptions" "subscriptions" conn oracle
          project ps pt := by
  intro conn oracle project ps pt
  have h1 : "/projects/" ++ project ++ "/" ++ "topics" =
      "/projects/" ++ project ++ "/topics" :=
    String.append_assoc ("/projects/" ++ project) "/" "topics"
  have h2 : "/projects/" ++ project ++ "/" ++ "subscriptions" =
      "/projects/" ++ project ++ "/subscriptions" :=
    String.append_assoc ("/projects/" ++ project) "/" "subscriptions"
  constructor
  · simp only [Connection.list_topics, list_resources_spec,
      Connection.api_request, h1]
  · simp only [Connection.list_subscriptions, list_resources_spec,
      Connection.api_request, h2]

/-- C9: every operation leaves the connection unchanged: the connection
returned by build_api_url, list_topics, list_subscriptions,
topic_create, topic_get, topic_delete and topic_publish is exactly the
input connection, so every field of the configuration is unchanged. -/
theorem c9_connection_immutable :
    ∀ (conn : Connection) (oracle : Request → List (String × Json))
      (path project tp : String) (qp : List (String × Json))
      (b v : Option String) (ps : Option Int) (pt : Option String)
      (msgs : List Json),
      (conn.build_api_url path qp b v).2.2 = conn
      ∧ (conn.list_topics oracle project ps pt).2.2 = conn
      ∧ (conn.list_subscriptions oracle project ps pt).2.2 = conn
      ∧ (conn.topic_create oracle tp).2.2 = conn
      ∧ (conn.topic_get oracle tp).2.2 = conn
      ∧ (conn.topic_delete oracle tp).2.2 = conn
      ∧ (conn.topic_publish oracle tp msgs).2.2 = conn := by
  intro conn oracle path project tp qp b v ps pt msgs
  exact ⟨rfl, rfl, rfl, rfl, rfl, rfl, rfl⟩

end GCloudPubsub
